import Mathlib

/-!
Verification of the Linx repository's two Python scripts:
`LinxRun/python/LinxRun/LinxBenchmarkPythonConvolution.py` (a convolution
benchmark) and `doc/diagrams/plot.py` (a bar-chart plotter).

Cell values are carried as rationals, but the generation step models the
float32 dtype faithfully: an integer cast to float32 is rounded to 24
significant bits (round half to even), so integers above 2^24 are not
represented exactly.  Wall-clock readings are arbitrary rationals:
`time.time()` gives no monotonicity guarantee (the system clock may be
set back between two readings).  External library calls
(scipy.ndimage.convolve, pandas.read_csv, seaborn.barplot, matplotlib)
are modelled as pure Lean functions following their documented
behaviour; fallible calls return `Except PyError`.
-/

/-- An exception escaping to the process boundary. -/
inductive PyError where
  /-- e.g. scipy's RuntimeError for an unsupported boundary mode. -/
  | runtimeError (msg : String)
  /-- e.g. pandas' OSError for an unreadable input file. -/
  | oserror (msg : String)
  /-- Python NameError: a name was used before being bound. -/
  | nameError (name : String)
deriving DecidableEq, Repr

instance {ε α : Type} [DecidableEq ε] [DecidableEq α] :
    DecidableEq (Except ε α) := fun x y =>
  match x, y with
  | .error a, .error b =>
      if h : a = b then .isTrue (by rw [h])
      else .isFalse (by intro hh; cases hh; exact h rfl)
  | .error _, .ok _ => .isFalse (by intro hh; cases hh)
  | .ok _, .error _ => .isFalse (by intro hh; cases hh)
  | .ok a, .ok b =>
      if h : a = b then .isTrue (by rw [h])
      else .isFalse (by intro hh; cases hh; exact h rfl)

/-- Model of a NumPy 2-D array: a shape together with the cells in
row-major order.  Cell values are exact rationals. -/
structure NDArray where
  rows : Nat
  cols : Nat
  data : List ℚ
deriving DecidableEq, Repr

/-- The `.shape` attribute of a 2-D array. -/
def NDArray.shape (a : NDArray) : Nat × Nat := (a.rows, a.cols)

/-- Row-major cell access with NumPy's flat indexing; out-of-range reads
default to 0 (they never occur on well-formed arrays). -/
def NDArray.at2 (a : NDArray) (r c : Nat) : ℚ := a.data.getD (r * a.cols + c) 0

/-- The number of low bits a float32 significand cannot hold for the
natural number `n`: the least `s` with `n / 2 ^ s < 2 ^ 24`, computed with
a structural fuel of 128 bits (covering every magnitude far beyond
float32 overflow). -/
def excessBitsAux : Nat → Nat → Nat
  | 0, _ => 0
  | fuel + 1, n => if n < 2 ^ 24 then 0 else excessBitsAux fuel (n / 2) + 1

/-- The number of trailing bits of `n` that do not fit in a float32
significand. -/
def excessBits (n : Nat) : Nat := excessBitsAux 128 n

/-- The natural number produced by casting `n` to IEEE-754 float32:
integers up to 2^24 are exact; above that the value is rounded to a
multiple of `2 ^ excessBits n` with ties going to the even significand
(round half to even, the IEEE default). -/
def float32roundNat (n : Nat) : Nat :=
  if n < 2 ^ 24 then n
  else
    let s := excessBits n
    let q := n / 2 ^ s
    let r := n % 2 ^ s
    let half := 2 ^ s / 2
    if r < half then q * 2 ^ s
    else if half < r then (q + 1) * 2 ^ s
    else (if q % 2 = 0 then q else q + 1) * 2 ^ s

/-- `np.arange(n, dtype=np.float32)`: the sequential values 0, 1, ..., n-1,
each cast to float32 (exact below 2^24, rounded half-to-even above). -/
def npArange (n : Nat) : List ℚ :=
  (List.range n).map (fun i : ℕ => (float32roundNat i : ℚ))

/-- `np.arange(np.prod(shape), dtype=np.float32).reshape(shape)` for a
2-D `shape`: the first `shape.1 * shape.2` naturals, cast to float32,
laid out row-major. -/
def arangeReshape (shape : Nat × Nat) : NDArray :=
  { rows := shape.1, cols := shape.2, data := npArange (shape.1 * shape.2) }

/-- The boundary modes accepted by `scipy.ndimage.convolve`. -/
inductive Mode where
  | reflect
  | constant
  | nearest
  | mirror
  | wrap
deriving DecidableEq, Repr

/-- The mapping from the `mode=` string of `scipy.ndimage.convolve` to a
supported boundary mode; an unrecognised string yields `none` (scipy
raises a RuntimeError). -/
def parseMode (s : String) : Option Mode :=
  if s = "reflect" then some .reflect
  else if s = "constant" then some .constant
  else if s = "nearest" then some .nearest
  else if s = "mirror" then some .mirror
  else if s = "wrap" then some .wrap
  else none

/-- Map an index `i` that may lie outside `[0, n)` to the in-range index
read by scipy's boundary handling; `none` means the constant fill value
(cval = 0) is read instead.  Follows the scipy.ndimage documentation for
the five modes. -/
def extendIndex (mode : Mode) (n : Nat) (i : Int) : Option Nat :=
  if n = 0 then none else
  match mode with
  | .nearest => some (if i < 0 then 0 else if (n : Int) ≤ i then n - 1 else i.toNat)
  | .wrap => some (i.emod n).toNat
  | .reflect =>
      let j := (i.emod (2 * n)).toNat
      some (if j < n then j else 2 * n - 1 - j)
  | .mirror =>
      if n = 1 then some 0 else
      let j := (i.emod (2 * n - 2)).toNat
      some (if j < n then j else 2 * n - 2 - j)
  | .constant => if 0 ≤ i ∧ i < (n : Int) then some i.toNat else none

/-- Read the input array at an extended (possibly out-of-range) position,
applying the boundary mode; the constant mode's fill value is 0. -/
def sampleAt (mode : Mode) (a : NDArray) (ri ci : Int) : ℚ :=
  match extendIndex mode a.rows ri, extendIndex mode a.cols ci with
  | some r, some c => a.at2 r c
  | _, _ => 0

/-- Model of `scipy.ndimage.convolve(input, weights, mode=mode)` with the
default origin: each output cell is the weighted sum of input cells under
the flipped kernel, boundary cells extended per `mode`.  The output shape
equals the input shape. -/
def convolve (input weights : NDArray) (mode : Mode) : NDArray :=
  { rows := input.rows, cols := input.cols,
    data := (List.range (input.rows * input.cols)).map (fun idx =>
      let r := idx / input.cols
      let c := idx % input.cols
      ((List.range weights.rows).map (fun u =>
        ((List.range weights.cols).map (fun v =>
          weights.at2 u v *
            sampleAt mode input
              ((r : Int) + (weights.rows / 2 : Nat) - (u : Int))
              ((c : Int) + (weights.cols / 2 : Nat) - (v : Int)))).sum)).sum) }

/-- The library call `ndimage.convolve(image, kernel, output=image,
mode=extrapolation)` as invoked at line 34 of the benchmark: an
unsupported mode string raises a RuntimeError, otherwise the convolution
result is written into the image buffer. -/
def ndimage_convolve (input weights : NDArray) (mode : String) :
    Except PyError NDArray :=
  match parseMode mode with
  | none => .error (.runtimeError "boundary mode not supported")
  | some m => .ok (convolve input weights m)

/-- A wall clock supplying the successive `time.time()` readings.  The
readings are arbitrary: `time.time()` carries no monotonicity guarantee,
since the system clock may be set back between two calls. -/
structure Clock where
  read : Nat → ℚ

/-- The parsed command-line arguments of the benchmark (`args.image`,
`args.kernel`, `args.extrapolation`). -/
structure BenchArgs where
  image : Nat
  kernel : Nat
  extrapolation : String
deriving DecidableEq, Repr

/-- The image generated at line 28 of the benchmark:
`np.arange(np.prod(image_shape), dtype=np.float32).reshape(image_shape)`
with `image_shape = (N, N)`. -/
def generatedImage (N : Nat) : NDArray := arangeReshape (N, N)

/-- The kernel generated at line 29 of the benchmark:
`np.arange(np.prod(kernel_shape), dtype=np.float32).reshape(kernel_shape)`
with `kernel_shape = (K, K)`. -/
def generatedKernel (K : Nat) : NDArray := arangeReshape (K, K)

/-- The observable outcome of a successful benchmark run: the contents of
the image buffer after the convolution call, the kernel array, and the
elapsed time in milliseconds as printed at line 38. -/
structure BenchResult where
  image : NDArray
  kernel : NDArray
  elapsed_ms : ℚ
deriving DecidableEq, Repr

/-- Embedding of `mainMethod` (lines 17-38 of the benchmark): generate the
image and the kernel, read the clock, call the external convolution with
the result written back into the image buffer, read the clock again, and
report the elapsed time `(end - start) * 1000`.  There is no try/except:
a library exception propagates unmodified. -/
def mainMethod (args : BenchArgs) (clock : Clock) : Except PyError BenchResult :=
  let image := generatedImage args.image
  let kernel := generatedKernel args.kernel
  let start := clock.read 0
  match ndimage_convolve image kernel args.extrapolation with
  | .error e => .error e
  | .ok out =>
      let stop := clock.read 1
      .ok { image := out, kernel := kernel, elapsed_ms := (stop - start) * 1000 }

/-- The benchmark's argparse parser: argument types. -/
inductive ArgType where
  | int
  | str
deriving DecidableEq, Repr

/-- A parsed argparse value. -/
inductive ArgValue where
  | int (n : Int)
  | str (s : String)
deriving DecidableEq, Repr

/-- One `parser.add_argument(flag, type=ty, default=dflt)` registration. -/
structure ArgSpec where
  flag : String
  ty : ArgType
  dflt : ArgValue
deriving DecidableEq, Repr

/-- `defineSpecificProgramOptions` (lines 9-14 of the benchmark): the three
registered flags with their types and defaults. -/
def defineSpecificProgramOptions : List ArgSpec :=
  [⟨"--image", .int, .int 2048⟩,
   ⟨"--kernel", .int, .int 5⟩,
   ⟨"--extrapolation", .str, .str "nearest"⟩]

/-- argparse's resolution of one flag: the value supplied on the command
line (converted per the registered type, `none` on a conversion failure or
an unregistered flag), or the registered default when the flag is
omitted. -/
def parseFlag (specs : List ArgSpec) (cmd : List (String × String))
    (flag : String) : Option ArgValue :=
  match specs.find? (fun s => s.flag == flag) with
  | none => none
  | some spec =>
    match cmd.lookup flag with
    | none => some spec.dflt
    | some raw =>
      match spec.ty with
      | .int => raw.toInt?.map ArgValue.int
      | .str => some (.str raw)

/-- The parsed command-line arguments of the plotter (`args.input`,
`args.output` with `nargs` optional, `args.log`, `args.values`). -/
structure PlotArgs where
  input : String
  output : Option String
  log : Bool
  values : Bool
deriving DecidableEq, Repr

/-- The tab-separated table loaded by `pd.read_csv(args.input, sep=TAB)`:
a header row of column names and the data rows as raw cell strings. -/
structure Table where
  columns : List String
  rows : List (List String)
deriving DecidableEq, Repr

/-- The cell values of column `i`, top to bottom. -/
def Table.colValues (t : Table) (i : Nat) : List String :=
  t.rows.map (fun r => r.getD i "")

/-- Model of a matplotlib Axes as produced by seaborn: the column roles,
the y-axis scale, and the bar containers, each bar carrying a flag
recording whether `bar_label` annotated it with its numeric value. -/
structure Axes where
  xcol : String
  huecol : Option String
  ycol : String
  yscale : String
  containers : List (List Bool)
deriving DecidableEq, Repr

/-- `sns.barplot(data=df, x=x, y=y)` at line 23 of the plotter, with
`x, y = df.columns`: one container holding one unlabelled bar per data
row, linear y-axis. -/
def barplotSimple (df : Table) : Axes :=
  { xcol := df.columns.getD 0 ""
    huecol := none
    ycol := df.columns.getD 1 ""
    yscale := "linear"
    containers := [List.replicate df.rows.length false] }

/-- `sns.barplot(data=df, x=x, hue=hue, y=y)` at line 27 of the plotter,
with `x, hue, y = df.columns`: one container per distinct hue value, one
unlabelled bar per distinct x category in each, linear y-axis. -/
def barplotGrouped (df : Table) : Axes :=
  { xcol := df.columns.getD 0 ""
    huecol := some (df.columns.getD 1 "")
    ycol := df.columns.getD 2 ""
    yscale := "linear"
    containers :=
      (df.colValues 1).dedup.map
        (fun _ => List.replicate (df.colValues 0).dedup.length false) }

/-- The binding of the Python variable `ax` after the two `if` statements
at lines 21-27: `some` axes when a barplot branch ran, `none` when `ax`
was never bound. -/
def axAfterBranches (df : Table) : Option Axes :=
  let ax : Option Axes :=
    if df.columns.length = 2 then some (barplotSimple df) else none
  if df.columns.length = 3 then some (barplotGrouped df) else ax

/-- `ax.set_yscale('log')`. -/
def setYScaleLog (a : Axes) : Axes := { a with yscale := "log" }

/-- `for i in ax.containers: ax.bar_label(i,)` — annotate every bar of
every container with its value. -/
def labelContainers (a : Axes) : Axes :=
  { a with containers := a.containers.map (fun c => c.map (fun _ => true)) }

/-- Lines 29-30 of the plotter: `if args.log: ax.set_yscale('log')`.
Using `ax` when it was never bound raises a NameError. -/
def applyLog (args : PlotArgs) (ax : Option Axes) :
    Except PyError (Option Axes) :=
  if args.log then
    match ax with
    | none => .error (.nameError "ax")
    | some a => .ok (some (setYScaleLog a))
  else .ok ax

/-- Lines 32-34 of the plotter: `if args.values: for i in ax.containers:
ax.bar_label(i,)`.  Using `ax` when it was never bound raises a
NameError. -/
def applyValues (args : PlotArgs) (ax : Option Axes) :
    Except PyError (Option Axes) :=
  if args.values then
    match ax with
    | none => .error (.nameError "ax")
    | some a => .ok (some (labelContainers a))
  else .ok ax

/-- The final rendering step: the chart was either displayed interactively
(`plt.show()`) or written to the given path (`plt.savefig(args.output)`). -/
inductive PlotOutcome where
  | shown (ax : Option Axes)
  | saved (path : String) (ax : Option Axes)
deriving DecidableEq, Repr

/-- The axes carried by an outcome. -/
def PlotOutcome.axes : PlotOutcome → Option Axes
  | .shown a => a
  | .saved _ a => a

/-- Lines 36-39 of the plotter: `if args.output is None: plt.show()
else: plt.savefig(args.output)`. -/
def outputStep (args : PlotArgs) (ax : Option Axes) : PlotOutcome :=
  match args.output with
  | none => .shown ax
  | some p => .saved p ax

/-- Embedding of the plotter's `__main__` body after argument parsing
(lines 18-39): load the table (`readResult` is what `pd.read_csv`
returned or raised), run the two branch `if`s, the log-scale and
value-label `if`s, then display or save.  There is no try/except: a
library exception propagates unmodified. -/
def runPlot (args : PlotArgs) (readResult : Except PyError Table) :
    Except PyError PlotOutcome :=
  match readResult with
  | .error e => .error e
  | .ok df =>
    let ax := axAfterBranches df
    match applyLog args ax with
    | .error e => .error e
    | .ok ax1 =>
      match applyValues args ax1 with
      | .error e => .error e
      | .ok ax2 => .ok (outputStep args ax2)

/-- Every bar of every container of the axes carries its value label. -/
def allLabeled (a : Axes) : Prop :=
  ∀ c ∈ a.containers, ∀ b ∈ c, b = true

instance (a : Axes) : Decidable (allLabeled a) := by
  unfold allLabeled; infer_instance

/-! Helper lemmas and concrete instances used by the witnesses. -/

/-- A concrete wall clock (both readings 0). -/
def clock0 : Clock := ⟨fun _ => 0⟩

/-- A wall clock stepped back between the two readings: the first reading
is 1, the second 0. -/
def clockBack : Clock := ⟨fun n => if n = 0 then 1 else 0⟩

/-- The benchmark outcome for a 1x1 image and 1x1 kernel on `clock0`. -/
def benchResult0 : BenchResult :=
  { image := convolve (generatedImage 1) (generatedKernel 1) Mode.nearest
    kernel := generatedKernel 1
    elapsed_ms := (clock0.read 1 - clock0.read 0) * 1000 }

/-- The benchmark outcome for a 1x1 image and 1x1 kernel on `clockBack`. -/
def benchResultBack : BenchResult :=
  { image := convolve (generatedImage 1) (generatedKernel 1) Mode.nearest
    kernel := generatedKernel 1
    elapsed_ms := (clockBack.read 1 - clockBack.read 0) * 1000 }

/-- The benchmark outcome for a 1x1 image and a 4097x4097 kernel on
`clock0`. -/
def benchResultK : BenchResult :=
  { image := convolve (generatedImage 1) (generatedKernel 4097) Mode.nearest
    kernel := generatedKernel 4097
    elapsed_ms := (clock0.read 1 - clock0.read 0) * 1000 }

/-- A row-major index is within the flat bound. -/
lemma rowMajor_lt {n m r c : Nat} (hr : r < n) (hc : c < m) :
    r * m + c < n * m := by
  calc r * m + c < r * m + m := by omega
  _ = (r + 1) * m := by ring
  _ ≤ n * m := Nat.mul_le_mul_right m hr

/-- Integers below 2^24 are exactly representable in float32. -/
lemma float32roundNat_eq_self {n : Nat} (h : n < 2 ^ 24) :
    float32roundNat n = n := by
  unfold float32roundNat
  rw [if_pos h]

/-- Squares of sizes up to 4096 stay within the exact float32 range. -/
lemma sq_le_two_pow {M : Nat} (h : M ≤ 4096) : M * M ≤ 2 ^ 24 := by
  calc M * M ≤ 4096 * 4096 := Nat.mul_le_mul h h
  _ = 2 ^ 24 := by norm_num

/-- Below 2^24 the float32 arange agrees with the exact range. -/
lemma npArange_exact {n : Nat} (h : n ≤ 2 ^ 24) :
    npArange n = (List.range n).map (fun i : ℕ => (i : ℚ)) := by
  unfold npArange
  apply List.map_congr_left
  intro i hi
  rw [List.mem_range] at hi
  rw [float32roundNat_eq_self (lt_of_lt_of_le hi h)]

/-- Row-major float32 sequential fill read back cell-wise. -/
lemma arangeReshape_at2 (n m r c : Nat) (hr : r < n) (hc : c < m) :
    (arangeReshape (n, m)).at2 r c = ((float32roundNat (r * m + c) : Nat) : ℚ) := by
  have hb : r * m + c < n * m := rowMajor_lt hr hc
  have h0 : (arangeReshape (n, m)).at2 r c
      = (List.map (fun i : ℕ => (float32roundNat i : ℚ))
          (List.range (n * m))).getD (r * m + c) 0 := rfl
  rw [h0, List.getD_eq_getElem?_getD, List.getElem?_map, List.getElem?_range hb]
  rfl

/-- Claim C1 (amended): the generated arrays have shapes (N,N) and (K,K)
for every N and K; for N ≤ 4096 and K ≤ 4096 their element values, read
in row-major order, are exactly the sequential ranges 0..N²-1 and
0..K²-1.  For larger sizes the float32 dtype rounds values above 2^24,
so the sequence is not exact. -/
theorem benchmark_generates_sequential_arrays (N K : Nat) :
    (generatedImage N).shape = (N, N) ∧
    (generatedKernel K).shape = (K, K) ∧
    (N ≤ 4096 →
      (generatedImage N).data = (List.range (N * N)).map (fun i : ℕ => (i : ℚ))) ∧
    (K ≤ 4096 →
      (generatedKernel K).data = (List.range (K * K)).map (fun i : ℕ => (i : ℚ))) ∧
    (N ≤ 4096 → ∀ r c, r < N → c < N →
      (generatedImage N).at2 r c = ((r * N + c : Nat) : ℚ)) ∧
    (K ≤ 4096 → ∀ r c, r < K → c < K →
      (generatedKernel K).at2 r c = ((r * K + c : Nat) : ℚ)) := by
  refine ⟨rfl, rfl, fun hN => npArange_exact (sq_le_two_pow hN),
    fun hK => npArange_exact (sq_le_two_pow hK),
    fun hN r c hr hc => ?_, fun hK r c hr hc => ?_⟩
  · rw [show generatedImage N = arangeReshape (N, N) from rfl,
      arangeReshape_at2 N N r c hr hc,
      float32roundNat_eq_self (lt_of_lt_of_le (rowMajor_lt hr hc) (sq_le_two_pow hN))]
  · rw [show generatedKernel K = arangeReshape (K, K) from rfl,
      arangeReshape_at2 K K r c hr hc,
      float32roundNat_eq_self (lt_of_lt_of_le (rowMajor_lt hr hc) (sq_le_two_pow hK))]

/-- Witness for C1 at N = 2, K = 3. -/
theorem benchmark_generates_sequential_arrays_witness :
    (generatedImage 2).at2 1 0 = ((1 * 2 + 0 : Nat) : ℚ) ∧
    (generatedKernel 3).at2 2 1 = ((2 * 3 + 1 : Nat) : ℚ) :=
  ⟨(benchmark_generates_sequential_arrays 2 3).2.2.2.2.1 (by decide) 1 0
      (by decide) (by decide),
   (benchmark_generates_sequential_arrays 2 3).2.2.2.2.2 (by decide) 2 1
      (by decide) (by decide)⟩

/-- Counterexample to C1 as frozen: at N = 4097 the flat row-major index
4095·4097 + 2 = 2^24 + 1 is not representable in float32, so the
generated image does not hold the exact sequential value there (it holds
2^24 = 16777216 instead). -/
theorem benchmark_sequential_arrays_counterexample :
    (generatedImage 4097).at2 4095 2 ≠ ((4095 * 4097 + 2 : Nat) : ℚ) := by
  rw [show generatedImage 4097 = arangeReshape (4097, 4097) from rfl,
    arangeReshape_at2 4097 4097 4095 2 (by norm_num) (by norm_num)]
  have hr : float32roundNat (4095 * 4097 + 2) = 16777216 := by decide
  have hn : (4095 * 4097 + 2 : Nat) = 16777217 := by norm_num
  rw [hr, hn]
  norm_num

/-- Claim C3: for every image size, kernel size, and supported boundary
mode, the benchmark's convolution call writes its result back into the
image buffer in place, and after the call that buffer's shape equals the
input image shape (N,N). -/
theorem benchmark_convolution_inplace_shape (args : BenchArgs) (c : Clock)
    (m : Mode) (hm : parseMode args.extrapolation = some m) :
    ∃ r, mainMethod args c = .ok r ∧
      r.image = convolve (generatedImage args.image) (generatedKernel args.kernel) m ∧
      r.image.shape = (args.image, args.image) := by
  refine ⟨{ image := convolve (generatedImage args.image) (generatedKernel args.kernel) m,
            kernel := generatedKernel args.kernel,
            elapsed_ms := (c.read 1 - c.read 0) * 1000 }, ?_, rfl, rfl⟩
  simp only [mainMethod, ndimage_convolve, hm]

/-- Witness for C3 at N = 2, K = 1, mode "nearest". -/
theorem benchmark_convolution_inplace_shape_witness :
    ∃ r, mainMethod ⟨2, 1, "nearest"⟩ clock0 = .ok r ∧
      r.image = convolve (generatedImage 2) (generatedKernel 1) .nearest ∧
      r.image.shape = (2, 2) :=
  benchmark_convolution_inplace_shape ⟨2, 1, "nearest"⟩ clock0 .nearest rfl

/-- Claim C4 (amended): the elapsed time the benchmark reports (the
difference of the wall-clock reading taken after the convolution call
and the reading taken before it, times 1000) is non-negative whenever
the later reading is at least the earlier one.  `time.time()` is not
guaranteed monotone: a system-clock step back between the two readings
makes the reported elapsed time negative. -/
theorem benchmark_elapsed_nonneg (args : BenchArgs) (c : Clock)
    (r : BenchResult) (hmono : c.read 0 ≤ c.read 1)
    (h : mainMethod args c = .ok r) : 0 ≤ r.elapsed_ms := by
  simp only [mainMethod] at h
  cases hc : ndimage_convolve (generatedImage args.image)
      (generatedKernel args.kernel) args.extrapolation with
  | error e => rw [hc] at h; exact absurd h (by simp)
  | ok out =>
      rw [hc] at h
      simp only [Except.ok.injEq] at h
      rw [← h]
      have : (0 : ℚ) ≤ c.read 1 - c.read 0 := by linarith
      positivity

/-- Counterexample to C4 as frozen: with the wall clock stepped back
between the two readings (first reading 1, second 0) the benchmark
reports an elapsed time of -1000 ms. -/
theorem benchmark_elapsed_negative_counterexample :
    mainMethod ⟨1, 1, "nearest"⟩ clockBack = .ok benchResultBack ∧
    benchResultBack.elapsed_ms < 0 := by
  refine ⟨rfl, ?_⟩
  norm_num [benchResultBack, clockBack]

/-- Claim C7: the benchmark's command-line parser uses default values of
2048 for the image size, 5 for the kernel size, and "nearest" for the
extrapolation mode when the corresponding flag is omitted. -/
theorem benchmark_parser_defaults (cmd : List (String × String))
    (h1 : cmd.lookup "--image" = none)
    (h2 : cmd.lookup "--kernel" = none)
    (h3 : cmd.lookup "--extrapolation" = none) :
    parseFlag defineSpecificProgramOptions cmd "--image" = some (.int 2048) ∧
    parseFlag defineSpecificProgramOptions cmd "--kernel" = some (.int 5) ∧
    parseFlag defineSpecificProgramOptions cmd "--extrapolation" = some (.str "nearest") := by
  have e1 : (defineSpecificProgramOptions.find? (fun s => s.flag == "--image"))
      = some ⟨"--image", .int, .int 2048⟩ := by decide
  have e2 : (defineSpecificProgramOptions.find? (fun s => s.flag == "--kernel"))
      = some ⟨"--kernel", .int, .int 5⟩ := by decide
  have e3 : (defineSpecificProgramOptions.find? (fun s => s.flag == "--extrapolation"))
      = some ⟨"--extrapolation", .str, .str "nearest"⟩ := by decide
  refine ⟨?_, ?_, ?_⟩
  · simp only [parseFlag, e1, h1]
  · simp only [parseFlag, e2, h2]
  · simp only [parseFlag, e3, h3]

/-- Witness for C7 on the empty command line. -/
theorem benchmark_parser_defaults_witness :
    parseFlag defineSpecificProgramOptions [] "--image" = some (.int 2048) ∧
    parseFlag defineSpecificProgramOptions [] "--kernel" = some (.int 5) ∧
    parseFlag defineSpecificProgramOptions [] "--extrapolation" = some (.str "nearest") :=
  benchmark_parser_defaults [] rfl rfl rfl

/-- Claim C8: neither script catches, retries, or translates a library
failure: an exception raised by the convolution call surfaces unmodified
as the benchmark's outcome, and an exception raised while reading the
input file surfaces unmodified as the plotter's outcome. -/
theorem scripts_propagate_library_errors :
    (∀ (args : BenchArgs) (c : Clock) (e : PyError),
        ndimage_convolve (generatedImage args.image) (generatedKernel args.kernel)
            args.extrapolation = .error e →
        mainMethod args c = .error e) ∧
    (∀ (args : PlotArgs) (e : PyError), runPlot args (.error e) = .error e) := by
  constructor
  · intro args c e h
    simp only [mainMethod, h]
  · intro args e
    rfl

/-- Witness for C8: an unsupported mode string in the benchmark and an
unreadable input file in the plotter. -/
theorem scripts_propagate_library_errors_witness :
    mainMethod ⟨1, 1, "bogus"⟩ clock0
      = .error (.runtimeError "boundary mode not supported") ∧
    runPlot ⟨"in.tsv", none, false, false⟩ (.error (.oserror "unreadable"))
      = .error (.oserror "unreadable") :=
  ⟨scripts_propagate_library_errors.1 ⟨1, 1, "bogus"⟩ clock0 _ rfl,
   scripts_propagate_library_errors.2 ⟨"in.tsv", none, false, false⟩ _⟩

/-- Claim C10 (amended): the benchmark's convolution call mutates only
the image buffer: for every image size, kernel size, and supported
boundary mode, the kernel array is unchanged by the convolution call;
for K ≤ 4096 it still holds the sequential values 0..K²-1 afterwards
(for larger K the float32 kernel never held those exact values). -/
theorem benchmark_kernel_unchanged (args : BenchArgs) (c : Clock)
    (r : BenchResult) (h : mainMethod args c = .ok r) :
    r.kernel = generatedKernel args.kernel ∧
    (args.kernel ≤ 4096 →
      r.kernel.data
        = (List.range (args.kernel * args.kernel)).map (fun i : ℕ => (i : ℚ))) := by
  simp only [mainMethod] at h
  cases hc : ndimage_convolve (generatedImage args.image)
      (generatedKernel args.kernel) args.extrapolation with
  | error e => rw [hc] at h; exact absurd h (by simp)
  | ok out =>
      rw [hc] at h
      simp only [Except.ok.injEq] at h
      rw [← h]
      exact ⟨rfl, fun hK => npArange_exact (sq_le_two_pow hK)⟩

/-- Witness for C10 at N = 1, K = 1, mode "nearest". -/
theorem benchmark_kernel_unchanged_witness :
    benchResult0.kernel = generatedKernel 1 ∧
    benchResult0.kernel.data
      = (List.range (1 * 1)).map (fun i : ℕ => (i : ℚ)) :=
  ⟨(benchmark_kernel_unchanged ⟨1, 1, "nearest"⟩ clock0 benchResult0 rfl).1,
   (benchmark_kernel_unchanged ⟨1, 1, "nearest"⟩ clock0 benchResult0 rfl).2
     (by decide)⟩

/-- Counterexample to C10 as frozen: after a successful run with
K = 4097 the kernel buffer does not hold the sequential value at flat
index 4095·4097 + 2 = 2^24 + 1, because float32 rounds it to 2^24. -/
theorem benchmark_kernel_sequential_counterexample :
    mainMethod ⟨1, 4097, "nearest"⟩ clock0 = .ok benchResultK ∧
    benchResultK.kernel.at2 4095 2 ≠ ((4095 * 4097 + 2 : Nat) : ℚ) := by
  refine ⟨rfl, ?_⟩
  show (arangeReshape (4097, 4097)).at2 4095 2 ≠ _
  rw [arangeReshape_at2 4097 4097 4095 2 (by norm_num) (by norm_num)]
  have hr : float32roundNat (4095 * 4097 + 2) = 16777216 := by decide
  have hn : (4095 * 4097 + 2 : Nat) = 16777217 := by norm_num
  rw [hr, hn]
  norm_num

/-- Witness for C4 at N = 1, K = 1, mode "nearest" on `clock0`. -/
theorem benchmark_elapsed_nonneg_witness : 0 ≤ benchResult0.elapsed_ms :=
  benchmark_elapsed_nonneg ⟨1, 1, "nearest"⟩ clock0 benchResult0 (le_refl 0) rfl

/-! Decomposition lemmas for the plotter's control flow. -/

/-- A concrete two-column input table. -/
def tbl2 : Table := ⟨["a", "b"], [["x", "1"], ["y", "2"]]⟩

/-- A concrete three-column input table. -/
def tbl3 : Table := ⟨["a", "b", "c"], [["x", "u", "1"]]⟩

/-- A concrete one-column input table. -/
def tbl1 : Table := ⟨["a"], []⟩

lemma applyLog_ok_cases (args : PlotArgs) (ax ax1 : Option Axes)
    (h : applyLog args ax = .ok ax1) :
    (args.log = false ∧ ax1 = ax) ∨
    (args.log = true ∧ ∃ a, ax = some a ∧ ax1 = some (setYScaleLog a)) := by
  unfold applyLog at h
  cases hl : args.log with
  | false => rw [hl] at h; simp at h; exact Or.inl ⟨rfl, h.symm⟩
  | true =>
      rw [hl] at h; simp only [if_true] at h
      cases ax with
      | none => exact absurd h (by simp)
      | some a =>
          simp only [Except.ok.injEq] at h
          exact Or.inr ⟨rfl, a, rfl, h.symm⟩

lemma applyValues_ok_cases (args : PlotArgs) (ax ax1 : Option Axes)
    (h : applyValues args ax = .ok ax1) :
    (args.values = false ∧ ax1 = ax) ∨
    (args.values = true ∧ ∃ a, ax = some a ∧ ax1 = some (labelContainers a)) := by
  unfold applyValues at h
  cases hv : args.values with
  | false => rw [hv] at h; simp at h; exact Or.inl ⟨rfl, h.symm⟩
  | true =>
      rw [hv] at h; simp only [if_true] at h
      cases ax with
      | none => exact absurd h (by simp)
      | some a =>
          simp only [Except.ok.injEq] at h
          exact Or.inr ⟨rfl, a, rfl, h.symm⟩

lemma runPlot_ok_decompose (args : PlotArgs) (df : Table) (o : PlotOutcome)
    (h : runPlot args (.ok df) = .ok o) :
    ∃ ax1 ax2, applyLog args (axAfterBranches df) = .ok ax1 ∧
      applyValues args ax1 = .ok ax2 ∧ o = outputStep args ax2 := by
  simp only [runPlot] at h
  cases h1 : applyLog args (axAfterBranches df) with
  | error e => simp only [h1] at h; exact absurd h (by simp)
  | ok ax1 =>
      simp only [h1] at h
      cases h2 : applyValues args ax1 with
      | error e => simp only [h2] at h; exact absurd h (by simp)
      | ok ax2 =>
          simp only [h2, Except.ok.injEq] at h
          exact ⟨ax1, ax2, rfl, h2, h.symm⟩

lemma outputStep_axes (args : PlotArgs) (ax : Option Axes) :
    (outputStep args ax).axes = ax := by
  cases h : args.output <;> simp [outputStep, h, PlotOutcome.axes]

lemma labelContainers_allLabeled (a : Axes) : allLabeled (labelContainers a) := by
  intro c hc b hb
  simp only [labelContainers, List.mem_map] at hc
  obtain ⟨c0, _, hc0⟩ := hc
  rw [← hc0] at hb
  simp only [List.mem_map] at hb
  obtain ⟨b0, _, hb0⟩ := hb
  exact hb0.symm

/-- Claim C2: in the plotter, for every loaded input table: with exactly
two columns the simple bar-chart branch (x = first column, y = second
column) is taken; with exactly three columns the grouped bar-chart branch
(x = first, hue = second, y = third) is taken; for any other column count
neither branch is taken and no chart is produced. -/
theorem plotter_branch_selection (df : Table) :
    (df.columns.length = 2 →
      axAfterBranches df = some (barplotSimple df) ∧
      (barplotSimple df).xcol = df.columns.getD 0 "" ∧
      (barplotSimple df).huecol = none ∧
      (barplotSimple df).ycol = df.columns.getD 1 "") ∧
    (df.columns.length = 3 →
      axAfterBranches df = some (barplotGrouped df) ∧
      (barplotGrouped df).xcol = df.columns.getD 0 "" ∧
      (barplotGrouped df).huecol = some (df.columns.getD 1 "") ∧
      (barplotGrouped df).ycol = df.columns.getD 2 "") ∧
    (df.columns.length ≠ 2 → df.columns.length ≠ 3 →
      axAfterBranches df = none ∧
      ∀ (args : PlotArgs) (o : PlotOutcome),
        runPlot args (.ok df) = .ok o → o.axes = none) := by
  refine ⟨fun h2 => ⟨?_, rfl, rfl, rfl⟩, fun h3 => ⟨?_, rfl, rfl, rfl⟩,
    fun h2 h3 => ⟨?_, ?_⟩⟩
  · simp [axAfterBranches, h2]
  · simp [axAfterBranches, h3]
  · simp [axAfterBranches, h2, h3]
  · intro args o ho
    obtain ⟨ax1, ax2, hL, hV, hout⟩ := runPlot_ok_decompose args df o ho
    have hax : axAfterBranches df = none := by simp [axAfterBranches, h2, h3]
    rw [hax] at hL
    rcases applyLog_ok_cases args none ax1 hL with ⟨_, he⟩ | ⟨_, a, ha, _⟩
    · subst he
      rcases applyValues_ok_cases args none ax2 hV with ⟨_, he2⟩ | ⟨_, a, ha, _⟩
      · subst he2; rw [hout, outputStep_axes]
      · exact Option.noConfusion ha
    · exact Option.noConfusion ha

/-- Witness for C2 on concrete one-, two- and three-column tables. -/
theorem plotter_branch_selection_witness :
    axAfterBranches tbl2 = some (barplotSimple tbl2) ∧
    axAfterBranches tbl3 = some (barplotGrouped tbl3) ∧
    axAfterBranches tbl1 = none ∧
    (PlotOutcome.shown none).axes = none :=
  ⟨((plotter_branch_selection tbl2).1 rfl).1,
   ((plotter_branch_selection tbl3).2.1 rfl).1,
   ((plotter_branch_selection tbl1).2.2 (by decide) (by decide)).1,
   ((plotter_branch_selection tbl1).2.2 (by decide) (by decide)).2
     ⟨"in.tsv", none, false, false⟩ (.shown none) rfl⟩

/-- Claim C5: whenever the --log flag is given the chart's y-axis is set
to logarithmic scale, and whenever the --values flag is given every bar
in the chart is annotated with its numeric value. -/
theorem plotter_flag_effects (args : PlotArgs) (rr : Except PyError Table)
    (o : PlotOutcome) (h : runPlot args rr = .ok o) :
    (args.log = true → ∀ a, o.axes = some a → a.yscale = "log") ∧
    (args.values = true → ∀ a, o.axes = some a → allLabeled a) := by
  cases rr with
  | error e => exact absurd h (by simp [runPlot])
  | ok df =>
    obtain ⟨ax1, ax2, hL, hV, hout⟩ := runPlot_ok_decompose args df o h
    constructor
    · intro hl a ha
      rw [hout, outputStep_axes] at ha
      rcases applyValues_ok_cases args ax1 ax2 hV with ⟨_, he⟩ | ⟨_, b, hb, he⟩
      · rcases applyLog_ok_cases args _ ax1 hL with ⟨hlf, _⟩ | ⟨_, a0, _, h1⟩
        · rw [hl] at hlf; exact Bool.noConfusion hlf
        · have ha1 : ax1 = some a := he ▸ ha
          rw [h1] at ha1
          obtain rfl := (Option.some.inj ha1).symm
          rfl
      · rcases applyLog_ok_cases args _ ax1 hL with ⟨hlf, _⟩ | ⟨_, a0, _, h1⟩
        · rw [hl] at hlf; exact Bool.noConfusion hlf
        · rw [h1] at hb
          have hb0 : setYScaleLog a0 = b := Option.some.inj hb
          rw [he] at ha
          obtain rfl := Option.some.inj ha
          rw [← hb0]
          rfl
    · intro hv a ha
      rw [hout, outputStep_axes] at ha
      rcases applyValues_ok_cases args ax1 ax2 hV with ⟨hvf, _⟩ | ⟨_, b, hb, he⟩
      · rw [hv] at hvf; exact Bool.noConfusion hvf
      · rw [he] at ha
        obtain rfl := Option.some.inj ha
        exact labelContainers_allLabeled b

/-- The axes the plotter produces on `tbl2` with both flags set. -/
def axC5 : Axes := labelContainers (setYScaleLog (barplotSimple tbl2))

/-- Witness for C5 on `tbl2` with both --log and --values. -/
theorem plotter_flag_effects_witness : axC5.yscale = "log" ∧ allLabeled axC5 :=
  ⟨(plotter_flag_effects ⟨"in.tsv", none, true, true⟩ (.ok tbl2)
      (.shown (some axC5)) rfl).1 rfl axC5 rfl,
   (plotter_flag_effects ⟨"in.tsv", none, true, true⟩ (.ok tbl2)
      (.shown (some axC5)) rfl).2 rfl axC5 rfl⟩

/-- Claim C6: for every plotter invocation that completes, if no output
path argument was given the chart is displayed interactively, and if an
output path was given the chart is written to that path instead of being
displayed. -/
theorem plotter_output_display_or_save (args : PlotArgs)
    (rr : Except PyError Table) (o : PlotOutcome) (h : runPlot args rr = .ok o) :
    (args.output = none → ∃ a, o = .shown a) ∧
    (∀ p, args.output = some p → ∃ a, o = .saved p a) := by
  cases rr with
  | error e => exact absurd h (by simp [runPlot])
  | ok df =>
    obtain ⟨_, ax2, _, _, hout⟩ := runPlot_ok_decompose args df o h
    constructor
    · intro hn
      exact ⟨ax2, by rw [hout]; simp [outputStep, hn]⟩
    · intro p hp
      exact ⟨ax2, by rw [hout]; simp [outputStep, hp]⟩

/-- Witness for C6: the same table rendered without and with an output
path. -/
theorem plotter_output_display_or_save_witness :
    (∃ a, PlotOutcome.shown (some (barplotSimple tbl2)) = .shown a) ∧
    (∃ a, PlotOutcome.saved "out.png" (some (barplotSimple tbl2))
            = .saved "out.png" a) :=
  ⟨(plotter_output_display_or_save ⟨"in.tsv", none, false, false⟩ (.ok tbl2)
      (.shown (some (barplotSimple tbl2))) rfl).1 rfl,
   (plotter_output_display_or_save ⟨"in.tsv", some "out.png", false, false⟩
      (.ok tbl2) (.saved "out.png" (some (barplotSimple tbl2))) rfl).2
      "out.png" rfl⟩

/-- Claim C9: for every input table whose column count is neither 2 nor
3, the variable ax is never bound, so if either the --log flag or the
--values flag is also given the script fails with an unbound-name error
before reaching the display/save step. -/
theorem plotter_unbound_ax_fails (args : PlotArgs) (df : Table)
    (h2 : df.columns.length ≠ 2) (h3 : df.columns.length ≠ 3)
    (hflag : args.log = true ∨ args.values = true) :
    runPlot args (.ok df) = .error (.nameError "ax") := by
  have hax : axAfterBranches df = none := by simp [axAfterBranches, h2, h3]
  simp only [runPlot, hax]
  cases hl : args.log with
  | true => simp [applyLog, hl]
  | false =>
      have hv : args.values = true := by
        rcases hflag with hh | hh
        · rw [hl] at hh; exact Bool.noConfusion hh
        · exact hh
      simp [applyLog, hl, applyValues, hv]

/-- Witness for C9 on a one-column table with --log. -/
theorem plotter_unbound_ax_fails_witness :
    runPlot ⟨"in.tsv", none, true, false⟩ (.ok tbl1)
      = .error (.nameError "ax") :=
  plotter_unbound_ax_fails ⟨"in.tsv", none, true, false⟩ tbl1
    (by decide) (by decide) (Or.inl rfl)
